import Mathlib

/-!
Verification development for the top.gg Rust client library (`src/lib.rs`).

The embedding models each client operation as a pure function of the
network outcome it observes (`NetResult`): the transport either fails,
the JSON decode fails, or a decoded wire value is delivered.  Rust code
that can `panic!` (an `unwrap` on a failed numeric-string parse, or on a
failed channel send) is modelled by `RustOutcome.panicked`.  Machine
integers are modelled as `Nat`/`Int`; `u64` string parsing checks the
`2 ^ 64` bound explicitly, as Rust's `str::parse::<u64>` does.

Field and function names follow the source.  Two renames were forced by
Lean keywords: the Rust struct field spelled like the Lean keyword for
p-r-e-f-i-x notation is called `prefx` here, and `r#mod` is called `mod`.
-/

/-- Outcome of running a piece of Rust code that may `panic!`. -/
inductive RustOutcome (α : Type) where
  | panicked
  | ret (a : α)
deriving DecidableEq, Repr

/-- What the HTTP layer hands back to a client method: a transport
failure (`res.is_err()`), a body that failed to decode (`.json()` error),
or a decoded wire value. -/
inductive NetResult (α : Type) where
  | sendErr
  | decodeErr
  | ok (a : α)
deriving DecidableEq, Repr

/-- Numeric value of an ASCII digit character. -/
def digitVal (c : Char) : Nat := c.toNat - 48

/-- Accumulate a decimal digit list into a number, most significant first. -/
def foldDec (a : Nat) (ds : List Char) : Nat :=
  ds.foldl (fun a c => a * 10 + digitVal c) a

/-- Model of Rust's `str::parse::<u64>()`: an optional leading plus sign,
then one or more ASCII digits, and the value must fit in 64 bits;
anything else is a parse error (`none`). -/
def parseU64 (s : String) : Option Nat :=
  let cs := s.data
  let ds := match cs with
    | [] => ([] : List Char)
    | c :: rest => if c = '+' then rest else cs
  if ds.isEmpty then none
  else if ds.all Char.isDigit then
    let n := foldDec 0 ds
    if n < 2 ^ 64 then some n else none
  else none

/-- Decimal digit characters of `n`, most significant first, with
structural fuel (`fuel ≥ n` makes the result canonical). -/
def toDecDigitsGo : Nat → Nat → List Char
  | 0, _ => []
  | _ + 1, 0 => []
  | fuel + 1, n + 1 =>
      toDecDigitsGo fuel ((n + 1) / 10) ++ [Char.ofNat (48 + (n + 1) % 10)]

/-- Decimal digit characters of `n`, most significant first. -/
def toDecDigits (n : Nat) : List Char := toDecDigitsGo n n

/-- The canonical decimal string of a natural number, as it appears in
the directory's wire JSON for numeric IDs. -/
def decimalRepr (n : Nat) : String :=
  if n = 0 then "0" else String.mk (toDecDigits n)

namespace Topgg

/-- Wire shape of a bot profile (`JsonBot` in the source): every numeric
ID is a decimal string. -/
structure JsonBot where
  id : String
  username : String
  discriminator : String
  avatar : Option String
  defAvatar : String
  lib : String
  prefx : String
  shortdesc : String
  longdesc : Option String
  tags : List String
  website : Option String
  support : Option String
  github : Option String
  owners : List String
  guilds : List String
  invite : Option String
  date : String
  certifiedBot : Bool
  vanity : Option String
  points : Nat
  monthlyPoints : Nat
  donatebotguildid : String
deriving DecidableEq, Repr

/-- Domain bot profile (`Bot` in the source): numeric IDs parsed to `u64`. -/
structure Bot where
  id : Nat
  username : String
  discriminator : String
  avatar : Option String
  def_avatar : String
  lib : String
  prefx : String
  short_desc : String
  long_desc : Option String
  tags : List String
  website : Option String
  support : Option String
  github : Option String
  owners : List Nat
  guilds : List Nat
  invite : Option String
  date : String
  certified_bot : Bool
  vanity : Option String
  points : Nat
  monthly_points : Nat
  donate_bot_guild_id : Option Nat
deriving DecidableEq, Repr

/-- The field mapping built inside `Topgg::bot`: `id`, each element of
`owners` and `guilds` are parsed with `.unwrap()` (panic on failure),
while `donatebotguildid` is parsed with `.ok()` (absent on failure). -/
def botFromJson (res : JsonBot) : RustOutcome Bot :=
  match parseU64 res.id, res.owners.mapM parseU64, res.guilds.mapM parseU64 with
  | some id, some owners, some guilds =>
      .ret {
        id := id
        username := res.username
        discriminator := res.discriminator
        avatar := res.avatar
        def_avatar := res.defAvatar
        lib := res.lib
        prefx := res.prefx
        short_desc := res.shortdesc
        long_desc := res.longdesc
        tags := res.tags
        website := res.website
        support := res.support
        github := res.github
        owners := owners
        guilds := guilds
        invite := res.invite
        date := res.date
        certified_bot := res.certifiedBot
        vanity := res.vanity
        points := res.points
        monthly_points := res.monthlyPoints
        donate_bot_guild_id := parseU64 res.donatebotguildid }
  | _, _, _ => .panicked

/-- `Topgg::bot`: transport or decode failure returns `None`; a decoded
body goes through the numeric-ID field mapping (which can panic). -/
def bot (net : NetResult JsonBot) : RustOutcome (Option Bot) :=
  match net with
  | .sendErr => .ret none
  | .decodeErr => .ret none
  | .ok res =>
      match botFromJson res with
      | .panicked => .panicked
      | .ret b => .ret (some b)

/-- Wire shape of a user profile (`JsonUser` in the source); the `social`
map is a free-form key-value mapping. -/
structure JsonUser where
  id : String
  username : String
  discriminator : String
  avatar : Option String
  defAvatar : String
  bio : Option String
  banner : Option String
  social : List (String × String)
  color : Option String
  supporter : Bool
  certifiedDev : Bool
  mod : Bool
  webMod : Bool
  admin : Bool
deriving DecidableEq, Repr

/-- Domain user profile (`User` in the source). -/
structure User where
  id : Nat
  username : String
  discriminator : String
  avatar : Option String
  def_avatar : String
  bio : Option String
  banner : Option String
  youtube : Option String
  reddit : Option String
  twitter : Option String
  instagram : Option String
  github : Option String
  color : Option String
  supporter : Bool
  certified_dev : Bool
  moderator : Bool
  web_moderator : Bool
  admin : Bool
deriving DecidableEq, Repr

/-- `HashMap::get` on the social mapping (`res.social.get(key)`); the
subsequent `parse::<String>().unwrap()` in the source is the identity
and cannot fail. -/
def socialGet (social : List (String × String)) (key : String) : Option String :=
  (social.find? (fun p => p.1 == key)).map (fun p => p.2)

/-- `Topgg::user`: transport or decode failure returns `None`; the `id`
field is parsed with `.unwrap()` (panic on failure); social links are
looked up by fixed key names. -/
def user (net : NetResult JsonUser) : RustOutcome (Option User) :=
  match net with
  | .sendErr => .ret none
  | .decodeErr => .ret none
  | .ok res =>
      match parseU64 res.id with
      | none => .panicked
      | some id =>
          .ret (some {
            id := id
            username := res.username
            discriminator := res.discriminator
            avatar := res.avatar
            def_avatar := res.defAvatar
            bio := res.bio
            banner := res.banner
            youtube := socialGet res.social "youtube"
            reddit := socialGet res.social "reddit"
            twitter := socialGet res.social "twitter"
            instagram := socialGet res.social "instagram"
            github := socialGet res.social "github"
            color := res.color
            supporter := res.supporter
            certified_dev := res.certifiedDev
            moderator := res.mod
            web_moderator := res.webMod
            admin := res.admin })

/-- Wire shape of a voter entry (`PartialJsonUser` in the source). -/
structure VotesJsonUser where
  id : String
  username : String
  discriminator : String
  avatar : Option String
deriving DecidableEq, Repr

/-- `Topgg::votes`: transport or decode failure returns `None`; each
voter's `id` is parsed with `.unwrap()` (panic on the first failure). -/
def votes (net : NetResult (List VotesJsonUser)) :
    RustOutcome (Option (List Nat)) :=
  match net with
  | .sendErr => .ret none
  | .decodeErr => .ret none
  | .ok res =>
      match res.mapM (fun u => parseU64 u.id) with
      | none => .panicked
      | some ids => .ret (some ids)

/-- Wire shape of the vote-check response (`CheckVote` in the source);
the `voted` field is a signed 8-bit integer on the wire. -/
structure CheckVote where
  voted : Int
deriving DecidableEq, Repr

/-- `Topgg::voted`: transport or decode failure returns `None`; a decoded
body yields `false` when `voted == 0` and `true` otherwise. -/
def voted (net : NetResult CheckVote) : RustOutcome (Option Bool) :=
  match net with
  | .sendErr => .ret none
  | .decodeErr => .ret none
  | .ok res =>
      if res.voted = 0 then .ret (some false) else .ret (some true)

/-- Bot statistics (`BotStats` in the source), decoded verbatim. -/
structure BotStats where
  server_count : Option Nat
  shards : List Nat
  shard_count : Option Nat
deriving DecidableEq, Repr

/-- `Topgg::get_bot_stats`: transport or decode failure returns `None`;
a decoded body is returned unchanged. -/
def get_bot_stats (net : NetResult BotStats) :
    RustOutcome (Option BotStats) :=
  match net with
  | .sendErr => .ret none
  | .decodeErr => .ret none
  | .ok res => .ret (some res)

end Topgg

/-- A JSON value, as produced by serde_json. -/
inductive Json where
  | null
  | bool (b : Bool)
  | num (n : Int)
  | str (s : String)
  | arr (xs : List Json)
  | obj (fields : List (String × Json))

/-- First-match key lookup in a JSON object's field list. -/
def jlookup : List (String × Json) → String → Option Json
  | [], _ => none
  | (k, v) :: rest, key => if k = key then some v else jlookup rest key

/-- Key lookup on a JSON value (objects only). -/
def Json.lookup : Json → String → Option Json
  | .obj fields, key => jlookup fields key
  | _, _ => none

/-- The keys of a JSON object, in serialization order. -/
def Json.keys : Json → List String
  | .obj fields => fields.map (fun p => p.1)
  | _ => []

namespace Topgg

/-- The publish-stats request body struct (`PostBotStats` in the source). -/
structure PostBotStats where
  server_count : Option Nat
  shards : Option (List Nat)
  shard_id : Option Nat
  shard_count : Option Nat

/-- serde's derived serialization of an `Option<u32>` field value:
`None` becomes JSON `null` (the field is not skipped). -/
def optNumJson : Option Nat → Json
  | none => Json.null
  | some n => Json.num n

/-- serde's derived serialization of an `Option<Vec<u32>>` field value:
`None` becomes JSON `null` (the field is not skipped). -/
def optArrJson : Option (List Nat) → Json
  | none => Json.null
  | some xs => Json.arr (xs.map (fun n => Json.num n))

/-- serde's derived `Serialize` for `PostBotStats`: all four fields are
emitted in declaration order; there is no skip attribute, so absent
options serialize as `null`. -/
def PostBotStats.toJson (p : PostBotStats) : Json :=
  Json.obj [
    ("server_count", optNumJson p.server_count),
    ("shards", optArrJson p.shards),
    ("shard_id", optNumJson p.shard_id),
    ("shard_count", optNumJson p.shard_count)]

/-- The value `reqwest::Client::post(..).send().await` resolves to:
either a transport error or a response. -/
inductive ReqwestResult where
  | err (code : Nat)
  | ok (status : Nat)
deriving DecidableEq, Repr

/-- The observable effects of one `post_bot_stats` call: how many
rate-limit permits it acquired, how many HTTP requests it issued, and
the JSON body it sent. -/
structure PostStatsCall where
  permitsAcquired : Nat
  requestsIssued : Nat
  body : Json

/-- `Topgg::post_bot_stats`: unconditionally waits for one rate-limit
permit, issues one POST whose JSON body is the serialized
`PostBotStats`, and returns the transport outcome verbatim as
`Result<reqwest::Response, reqwest::Error>`. -/
def post_bot_stats (server_count : Option Nat) (shards : Option (List Nat))
    (shard_id : Option Nat) (shard_count : Option Nat)
    (transport : ReqwestResult) : PostStatsCall × ReqwestResult :=
  ({ permitsAcquired := 1
     requestsIssued := 1
     body := PostBotStats.toJson
       { server_count := server_count
         shards := shards
         shard_id := shard_id
         shard_count := shard_count } },
   transport)

end Topgg

/-- A decoded webhook notification (`Webhook` in the source): the wire
field spelled t-y-p-e is renamed to `kind`, `isWeekend` to `is_weekend`;
`bot` and `user` stay unparsed strings. -/
structure Webhook where
  bot : String
  user : String
  kind : String
  is_weekend : Bool
  query : Option String
deriving DecidableEq, Repr

/-- Interpret a JSON value as a string, as serde does for a `String`
field. -/
def Json.asStr : Json → Option String
  | .str s => some s
  | _ => none

/-- Interpret a JSON value as a boolean, as serde does for a `bool`
field. -/
def Json.asBool : Json → Option Bool
  | .bool b => some b
  | _ => none

/-- serde's derived `Deserialize` for `Webhook` with camelCase renaming:
`bot`, `user` and the wire field renamed to `kind` must be strings,
`isWeekend` a boolean; `query` is an `Option<String>` so a missing key
or `null` decodes to `none` and any non-string, non-null value is an
error; unknown keys are ignored. -/
def Webhook.fromJson : Json → Option Webhook
  | Json.obj fields => do
      let bot ← (jlookup fields "bot").bind Json.asStr
      let user ← (jlookup fields "user").bind Json.asStr
      let kind ← (jlookup fields "type").bind Json.asStr
      let is_weekend ← (jlookup fields "isWeekend").bind Json.asBool
      let query ← match jlookup fields "query" with
        | none => some (none : Option String)
        | some Json.null => some none
        | some (Json.str s) => some (some s)
        | some _ => none
      pure { bot := bot, user := user, kind := kind,
             is_weekend := is_weekend, query := query }
  | _ => none

/-- HTTP request method (only POST is accepted by the listener). -/
inductive Method where
  | get
  | post
  | other
deriving DecidableEq, Repr

/-- An inbound HTTP request as the webhook listener sees it: method, the
`authorization` header if present, and the body (already lexed as a JSON
value; a body that is not valid JSON is any non-decoding value). -/
structure Request where
  method : Method
  authorization : Option String
  body : Json

/-- How the listener answers one request: a warp rejection (wrong
method, missing or wrong `authorization` header, or undecodable body), a
panic of the handler (the `unwrap` on a failed channel send), or the
empty success reply. -/
inductive HandlerResult where
  | rejected
  | panicked
  | replied
deriving DecidableEq, Repr

/-- The observable behaviour of the listener on one request: whether the
body-decode filter ran, the notifications pushed onto the channel, and
the HTTP-level result. -/
structure HandlerTrace where
  bodyDecoded : Bool
  events : List Webhook
  result : HandlerResult
deriving DecidableEq, Repr

namespace WebhookClient

/-- One request through the filter chain built in `WebhookClient::start`:
`warp::post()`, then the `authorization`-header filter (the header must
equal `auth` exactly), then `warp::body::json()`, then the map closure
that does `event_send.unbounded_send(hook).unwrap()`.  `receiverOpen`
says whether the channel's receiving half still exists; `unbounded_send`
fails when it does not, and the `unwrap` then panics, pushing nothing. -/
def handle (auth : String) (receiverOpen : Bool) (req : Request) :
    HandlerTrace :=
  match req.method with
  | Method.post =>
      match req.authorization with
      | none => { bodyDecoded := false, events := [], result := .rejected }
      | some value =>
          if value = auth then
            match Webhook.fromJson req.body with
            | none => { bodyDecoded := true, events := [], result := .rejected }
            | some hook =>
                if receiverOpen then
                  { bodyDecoded := true, events := [hook], result := .replied }
                else
                  { bodyDecoded := true, events := [], result := .panicked }
          else { bodyDecoded := false, events := [], result := .rejected }
  | _ => { bodyDecoded := false, events := [], result := .rejected }

end WebhookClient


/-- A concrete bot-profile wire fixture whose donation-guild ID does not
parse as a number; every other numeric field is a valid decimal string. -/
def botJsonNoDonate : Topgg.JsonBot :=
  { id := "668701133069352961"
    username := "ExampleBot"
    discriminator := "1234"
    avatar := some "avatarhash"
    defAvatar := "defavatar"
    lib := "serenity"
    prefx := "!"
    shortdesc := "short"
    longdesc := none
    tags := ["fun"]
    website := none
    support := none
    github := none
    owners := ["195512978634833920"]
    guilds := ["1", "2"]
    invite := none
    date := "2020-01-01"
    certifiedBot := false
    vanity := none
    points := 10
    monthlyPoints := 2
    donatebotguildid := "not-a-guild-id" }

/-- The same fixture with donation-guild ID `"0"`. -/
def botJsonZeroDonate : Topgg.JsonBot :=
  { botJsonNoDonate with donatebotguildid := "0" }

/-- The same fixture with owner and guild lists that are canonical
decimal strings, for the round-trip property. -/
def botJsonRound : Topgg.JsonBot :=
  { botJsonNoDonate with
    owners := ["3", "12"]
    guilds := ["0", "45"]
    donatebotguildid := "0" }

/-- A bot-profile wire fixture whose `id` is not a decimal string. -/
def badBotJson : Topgg.JsonBot :=
  { botJsonNoDonate with id := "not-a-number" }

/-- A bot-profile wire fixture whose `id` parses but whose owner list
holds a non-decimal string. -/
def badOwnersJson : Topgg.JsonBot :=
  { botJsonNoDonate with owners := ["not-a-number"] }

/-- A bot-profile wire fixture whose `id` and owner list parse but whose
guild list holds a non-decimal string. -/
def badGuildsJson : Topgg.JsonBot :=
  { botJsonNoDonate with guilds := ["not-a-number"] }

/-- A voter entry whose `id` is not a decimal string. -/
def badVoter : Topgg.VotesJsonUser :=
  { id := "not-a-number", username := "u", discriminator := "0001", avatar := none }

/-- A well-formed webhook notification body. -/
def sampleBody : Json :=
  Json.obj [("bot", Json.str "668701133069352961"),
    ("user", Json.str "195512978634833920"),
    ("type", Json.str "upvote"), ("isWeekend", Json.bool true),
    ("query", Json.str "a=b")]

/-- The notification `sampleBody` decodes to. -/
def sampleHook : Webhook :=
  { bot := "668701133069352961", user := "195512978634833920",
    kind := "upvote", is_weekend := true, query := some "a=b" }

/-- A POST request carrying `sampleBody` with the secret "pw". -/
def sampleReq : Request :=
  { method := Method.post, authorization := some "pw", body := sampleBody }


theorem digit_isDigit (r : Nat) (h : r < 10) :
    (Char.ofNat (48 + r)).isDigit = true := by
  interval_cases r <;> decide

theorem digitVal_ofNat (r : Nat) (h : r < 10) :
    digitVal (Char.ofNat (48 + r)) = r := by
  interval_cases r <;> decide

theorem toDecDigitsGo_all_digits (fuel n : Nat) :
    (toDecDigitsGo fuel n).all Char.isDigit = true := by
  induction fuel generalizing n with
  | zero => rfl
  | succ fuel ih =>
      cases n with
      | zero => rfl
      | succ m =>
          rw [toDecDigitsGo]
          rw [List.all_append]
          rw [ih]
          simp [digit_isDigit ((m + 1) % 10) (Nat.mod_lt _ (by decide))]

theorem foldDec_append (a : Nat) (l1 l2 : List Char) :
    foldDec a (l1 ++ l2) = foldDec (foldDec a l1) l2 := by
  simp [foldDec, List.foldl_append]

theorem foldDec_toDecDigitsGo (fuel : Nat) : ∀ (n a : Nat), n ≤ fuel →
    foldDec a (toDecDigitsGo fuel n)
      = a * 10 ^ (toDecDigitsGo fuel n).length + n := by
  induction fuel with
  | zero =>
      intro n a h
      have : n = 0 := Nat.le_zero.mp h
      subst this
      simp [toDecDigitsGo, foldDec]
  | succ fuel ih =>
      intro n a h
      cases n with
      | zero => simp [toDecDigitsGo, foldDec]
      | succ m =>
          have hdiv : (m + 1) / 10 ≤ fuel := by omega
          rw [toDecDigitsGo, foldDec_append, ih ((m + 1) / 10) a hdiv]
          have hmod : digitVal (Char.ofNat (48 + (m + 1) % 10)) = (m + 1) % 10 :=
            digitVal_ofNat _ (Nat.mod_lt _ (by decide))
          have hd : ∀ b : Nat, foldDec b [Char.ofNat (48 + (m + 1) % 10)]
              = b * 10 + (m + 1) % 10 := by
            intro b; simp [foldDec, hmod]
          rw [hd, List.length_append]
          have hqr : (m + 1) / 10 * 10 + (m + 1) % 10 = m + 1 := by omega
          calc (a * 10 ^ (toDecDigitsGo fuel ((m + 1) / 10)).length + (m + 1) / 10) * 10
                + (m + 1) % 10
              = a * (10 ^ (toDecDigitsGo fuel ((m + 1) / 10)).length * 10)
                + ((m + 1) / 10 * 10 + (m + 1) % 10) := by ring
            _ = a * 10 ^ ((toDecDigitsGo fuel ((m + 1) / 10)).length + [Char.ofNat (48 + (m + 1) % 10)].length)
                + (m + 1) := by rw [hqr]; rw [List.length_singleton]; rw [pow_succ]
  
theorem toDecDigitsGo_ne_nil (fuel n : Nat) (hpos : 0 < n) (h : n ≤ fuel) :
    toDecDigitsGo fuel n ≠ [] := by
  cases fuel with
  | zero => omega
  | succ f =>
      cases n with
      | zero => omega
      | succ m => rw [toDecDigitsGo]; simp

theorem parseU64_of_digits (l : List Char) (hne : l ≠ [])
    (hall : l.all Char.isDigit = true) (hlt : foldDec 0 l < 2 ^ 64) :
    parseU64 (String.mk l) = some (foldDec 0 l) := by
  obtain ⟨c, rest, rfl⟩ := List.exists_cons_of_ne_nil hne
  have hcdig : c.isDigit = true := by
    rw [List.all_cons] at hall
    exact (Bool.and_eq_true_iff.mp hall).1
  have hcne : ¬ (c = '+') := by
    intro hc; subst hc; exact absurd hcdig (by decide)
  have hlt2 : foldDec 0 (c :: rest) < 18446744073709551616 := by
    calc foldDec 0 (c :: rest) < 2 ^ 64 := hlt
      _ = 18446744073709551616 := by norm_num
  simp [parseU64, hcne, hall, hlt2]

theorem parseU64_decimalRepr (n : Nat) (h : n < 2 ^ 64) :
    parseU64 (decimalRepr n) = some n := by
  rcases Nat.eq_zero_or_pos n with h0 | hpos
  · subst h0; decide
  · have hne : n ≠ 0 := Nat.pos_iff_ne_zero.mp hpos
    rw [decimalRepr, if_neg hne]
    have hfold : foldDec 0 (toDecDigits n) = n := by
      have := foldDec_toDecDigitsGo n n 0 le_rfl
      simpa [toDecDigits] using this
    have hnil : toDecDigits n ≠ [] := toDecDigitsGo_ne_nil n n hpos le_rfl
    have hall : (toDecDigits n).all Char.isDigit = true :=
      toDecDigitsGo_all_digits n n
    rw [parseU64_of_digits (toDecDigits n) hnil hall (by rw [hfold]; exact h)]
    rw [hfold]

theorem mapM_parseU64_decimalRepr : ∀ (l : List Nat),
    (∀ x ∈ l, x < 2 ^ 64) → (l.map decimalRepr).mapM parseU64 = some l
  | [], _ => rfl
  | x :: xs, h => by
      have hx : x < 2 ^ 64 := h x (List.mem_cons_self x xs)
      have hxs := mapM_parseU64_decimalRepr xs (fun y hy => h y (List.mem_cons_of_mem x hy))
      rw [List.map_cons, List.mapM_cons, parseU64_decimalRepr x hx, hxs]
      rfl


theorem Topgg.bot_ok (j : Topgg.JsonBot) (i : Nat) (os gs : List Nat)
    (hid : parseU64 j.id = some i)
    (ho : j.owners.mapM parseU64 = some os)
    (hg : j.guilds.mapM parseU64 = some gs) :
    Topgg.bot (NetResult.ok j) = RustOutcome.ret (some
      { id := i
        username := j.username
        discriminator := j.discriminator
        avatar := j.avatar
        def_avatar := j.defAvatar
        lib := j.lib
        prefx := j.prefx
        short_desc := j.shortdesc
        long_desc := j.longdesc
        tags := j.tags
        website := j.website
        support := j.support
        github := j.github
        owners := os
        guilds := gs
        invite := j.invite
        date := j.date
        certified_bot := j.certifiedBot
        vanity := j.vanity
        points := j.points
        monthly_points := j.monthlyPoints
        donate_bot_guild_id := parseU64 j.donatebotguildid }) := by
  have hb : Topgg.botFromJson j = RustOutcome.ret
      { id := i
        username := j.username
        discriminator := j.discriminator
        avatar := j.avatar
        def_avatar := j.defAvatar
        lib := j.lib
        prefx := j.prefx
        short_desc := j.shortdesc
        long_desc := j.longdesc
        tags := j.tags
        website := j.website
        support := j.support
        github := j.github
        owners := os
        guilds := gs
        invite := j.invite
        date := j.date
        certified_bot := j.certifiedBot
        vanity := j.vanity
        points := j.points
        monthly_points := j.monthlyPoints
        donate_bot_guild_id := parseU64 j.donatebotguildid } := by
    unfold Topgg.botFromJson
    rw [hid, ho, hg]
  show (match Topgg.botFromJson j with
    | RustOutcome.panicked => RustOutcome.panicked
    | RustOutcome.ret b => RustOutcome.ret (some b)) = _
  rw [hb]

/-- C1 counterexample: with both `server_count` and `shards` absent,
`post_bot_stats` still issues a request and still acquires a permit —
the claimed no-op does not happen. -/
theorem c1_counterexample :
    (Topgg.post_bot_stats none none none none (Topgg.ReqwestResult.ok 200)).1.requestsIssued ≠ 0
  ∧ (Topgg.post_bot_stats none none none none (Topgg.ReqwestResult.ok 200)).1.permitsAcquired ≠ 0 := by
  exact ⟨by decide, by decide⟩

/-- C1 (amended): every invocation of `post_bot_stats`, including one
with both `server_count` and `shards` absent, acquires exactly one
rate-limit permit and issues exactly one HTTP request. -/
theorem c1_always_sends (sc : Option Nat) (sh : Option (List Nat))
    (si sct : Option Nat) (t : Topgg.ReqwestResult) :
    (Topgg.post_bot_stats sc sh si sct t).1.permitsAcquired = 1
  ∧ (Topgg.post_bot_stats sc sh si sct t).1.requestsIssued = 1 :=
  ⟨rfl, rfl⟩

/-- C2 counterexample: a decoded voter list whose `id` is not a decimal
string makes `votes` panic instead of returning `None`. -/
theorem c2_counterexample :
    Topgg.votes (NetResult.ok [badVoter]) = RustOutcome.panicked
  ∧ (RustOutcome.panicked : RustOutcome (Option (List Nat))) ≠ RustOutcome.ret none := by
  exact ⟨by decide, by decide⟩

/-- C2 (amended): transport and decode failures make every read
operation return `None`, but a field-level failure to parse a numeric-ID
decimal string (bot id, an owner ID, a guild ID, user id, a voter id)
panics the process instead of returning `None`; `voted` and
`get_bot_stats` parse no IDs and never panic on a decoded body. -/
theorem c2_failure_policy :
    (Topgg.bot NetResult.sendErr = RustOutcome.ret none)
  ∧ (Topgg.bot NetResult.decodeErr = RustOutcome.ret none)
  ∧ (Topgg.user NetResult.sendErr = RustOutcome.ret none)
  ∧ (Topgg.user NetResult.decodeErr = RustOutcome.ret none)
  ∧ (Topgg.votes NetResult.sendErr = RustOutcome.ret none)
  ∧ (Topgg.votes NetResult.decodeErr = RustOutcome.ret none)
  ∧ (Topgg.voted NetResult.sendErr = RustOutcome.ret none)
  ∧ (Topgg.voted NetResult.decodeErr = RustOutcome.ret none)
  ∧ (Topgg.get_bot_stats NetResult.sendErr = RustOutcome.ret none)
  ∧ (Topgg.get_bot_stats NetResult.decodeErr = RustOutcome.ret none)
  ∧ (∀ j : Topgg.JsonBot, parseU64 j.id = none →
      Topgg.bot (NetResult.ok j) = RustOutcome.panicked)
  ∧ (∀ j : Topgg.JsonBot, j.owners.mapM parseU64 = none →
      Topgg.bot (NetResult.ok j) = RustOutcome.panicked)
  ∧ (∀ j : Topgg.JsonBot, j.guilds.mapM parseU64 = none →
      Topgg.bot (NetResult.ok j) = RustOutcome.panicked)
  ∧ (∀ j : Topgg.JsonUser, parseU64 j.id = none →
      Topgg.user (NetResult.ok j) = RustOutcome.panicked)
  ∧ (∀ us : List Topgg.VotesJsonUser, us.mapM (fun u => parseU64 u.id) = none →
      Topgg.votes (NetResult.ok us) = RustOutcome.panicked)
  ∧ (∀ c : Topgg.CheckVote, Topgg.voted (NetResult.ok c) ≠ RustOutcome.panicked)
  ∧ (∀ s : Topgg.BotStats,
      Topgg.get_bot_stats (NetResult.ok s) = RustOutcome.ret (some s)) := by
  refine ⟨rfl, rfl, rfl, rfl, rfl, rfl, rfl, rfl, rfl, rfl, ?_, ?_, ?_, ?_, ?_, ?_, ?_⟩
  · intro j h; simp [Topgg.bot, Topgg.botFromJson, h]
  · intro j h
    have hb : Topgg.botFromJson j = RustOutcome.panicked := by
      unfold Topgg.botFromJson
      rw [h]
      cases parseU64 j.id <;> cases j.guilds.mapM parseU64 <;> rfl
    show (match Topgg.botFromJson j with
      | RustOutcome.panicked => RustOutcome.panicked
      | RustOutcome.ret b => RustOutcome.ret (some b)) = RustOutcome.panicked
    rw [hb]
  · intro j h
    have hb : Topgg.botFromJson j = RustOutcome.panicked := by
      unfold Topgg.botFromJson
      rw [h]
      cases parseU64 j.id <;> cases j.owners.mapM parseU64 <;> rfl
    show (match Topgg.botFromJson j with
      | RustOutcome.panicked => RustOutcome.panicked
      | RustOutcome.ret b => RustOutcome.ret (some b)) = RustOutcome.panicked
    rw [hb]
  · intro j h; simp [Topgg.user, h]
  · intro us h
    show (match us.mapM (fun u => parseU64 u.id) with
      | none => RustOutcome.panicked
      | some ids => RustOutcome.ret (some ids)) = RustOutcome.panicked
    rw [h]
  · intro c
    simp only [Topgg.voted]
    split <;> simp
  · intro s; rfl

/-- C2 witness: three failing bot-profile inputs — a bad bot id, a bad
owner ID and a bad guild ID — each fed through the amended theorem. -/
theorem c2_witness :
    (parseU64 badBotJson.id = none
      ∧ Topgg.bot (NetResult.ok badBotJson) = RustOutcome.panicked)
  ∧ (badOwnersJson.owners.mapM parseU64 = none
      ∧ Topgg.bot (NetResult.ok badOwnersJson) = RustOutcome.panicked)
  ∧ (badGuildsJson.guilds.mapM parseU64 = none
      ∧ Topgg.bot (NetResult.ok badGuildsJson) = RustOutcome.panicked) :=
  ⟨⟨by decide, c2_failure_policy.2.2.2.2.2.2.2.2.2.2.1 badBotJson (by decide)⟩,
   ⟨by decide,
    c2_failure_policy.2.2.2.2.2.2.2.2.2.2.2.1 badOwnersJson (by decide)⟩,
   ⟨by decide,
    c2_failure_policy.2.2.2.2.2.2.2.2.2.2.2.2.1 badGuildsJson (by decide)⟩⟩

/-- C3 counterexample: the value `post_bot_stats` returns on a transport
failure differs from the one it returns on success, so the caller can
distinguish them — the call is not fire-and-forget. -/
theorem c3_counterexample :
    (Topgg.post_bot_stats (some 1) none none none (Topgg.ReqwestResult.err 0)).2
  ≠ (Topgg.post_bot_stats (some 1) none none none (Topgg.ReqwestResult.ok 200)).2 := by
  decide

/-- C3 (amended): `post_bot_stats` returns the transport outcome
verbatim (`Result<reqwest::Response, reqwest::Error>`), so a transport
failure is surfaced to the caller as a recoverable error value
distinguishable from success. -/
theorem c3_returns_transport (sc : Option Nat) (sh : Option (List Nat))
    (si sct : Option Nat) (t : Topgg.ReqwestResult) :
    (Topgg.post_bot_stats sc sh si sct t).2 = t :=
  rfl

/-- C4 counterexample: with only `server_count` present, the serialized
body still carries a `shards` field, bound to JSON `null` — absent
fields are not omitted. -/
theorem c4_counterexample :
    (Topgg.post_bot_stats (some 5) none none none (Topgg.ReqwestResult.ok 200)).1.body.lookup "shards"
      = some Json.null
  ∧ (Topgg.post_bot_stats (some 5) none none none (Topgg.ReqwestResult.ok 200)).1.body.keys
      = ["server_count", "shards", "shard_id", "shard_count"] := by
  exact ⟨rfl, rfl⟩

/-- C4 (amended): the serialized body always carries all four fields in
declaration order; a present argument serializes to its value and an
absent argument serializes to JSON `null` rather than being omitted. -/
theorem c4_all_fields_serialized (sc : Option Nat) (sh : Option (List Nat))
    (si sct : Option Nat) (t : Topgg.ReqwestResult) :
    ((Topgg.post_bot_stats sc sh si sct t).1.body.keys
        = ["server_count", "shards", "shard_id", "shard_count"])
  ∧ ((Topgg.post_bot_stats sc sh si sct t).1.body.lookup "server_count"
        = some (Topgg.optNumJson sc))
  ∧ ((Topgg.post_bot_stats sc sh si sct t).1.body.lookup "shards"
        = some (Topgg.optArrJson sh))
  ∧ ((Topgg.post_bot_stats sc sh si sct t).1.body.lookup "shard_id"
        = some (Topgg.optNumJson si))
  ∧ ((Topgg.post_bot_stats sc sh si sct t).1.body.lookup "shard_count"
        = some (Topgg.optNumJson sct))
  ∧ (Topgg.optNumJson none = Json.null)
  ∧ (Topgg.optArrJson none = Json.null)
  ∧ (∀ n : Nat, Topgg.optNumJson (some n) = Json.num n)
  ∧ (∀ xs : List Nat, Topgg.optArrJson (some xs) = Json.arr (xs.map Json.num)) := by
  refine ⟨rfl, rfl, rfl, rfl, rfl, rfl, rfl, fun n => rfl, fun xs => rfl⟩

/-- C5: a successfully decoded vote-check response yields `false`
exactly when the wire `voted` integer is `0`, and `true` for every
nonzero value. -/
theorem c5_voted_decode (c : Topgg.CheckVote) :
    (Topgg.voted (NetResult.ok c) = RustOutcome.ret (some false) ↔ c.voted = 0)
  ∧ (c.voted ≠ 0 →
      Topgg.voted (NetResult.ok c) = RustOutcome.ret (some true)) := by
  constructor
  · constructor
    · intro h
      by_contra hne
      simp [Topgg.voted, hne] at h
    · intro h; simp [Topgg.voted, h]
  · intro h; simp [Topgg.voted, h]

/-- C5 witness: the wire value `-1` decodes to `true`. -/
theorem c5_witness :
    ((-1 : Int) ≠ 0)
  ∧ Topgg.voted (NetResult.ok { voted := -1 }) = RustOutcome.ret (some true) :=
  ⟨by decide, (c5_voted_decode { voted := -1 }).2 (by decide)⟩

/-- C6: a request whose `authorization` header does not exactly equal
the shared secret is rejected, its body is never decoded, and no event
reaches the channel. -/
theorem c6_unauthorized_rejected (auth : String) (ro : Bool) (req : Request)
    (h : req.authorization ≠ some auth) :
    (WebhookClient.handle auth ro req).bodyDecoded = false
  ∧ (WebhookClient.handle auth ro req).events = []
  ∧ (WebhookClient.handle auth ro req).result = HandlerResult.rejected := by
  obtain ⟨m, a, b⟩ := req
  cases m with
  | get => exact ⟨rfl, rfl, rfl⟩
  | other => exact ⟨rfl, rfl, rfl⟩
  | post =>
    cases a with
    | none => exact ⟨rfl, rfl, rfl⟩
    | some v =>
      have hv : ¬ (v = auth) := by
        intro hv
        exact h (by simp [hv])
      simp [WebhookClient.handle, hv]

/-- C6 witness: a POST with the wrong secret, even with a well-formed
body and a live receiver, is rejected without decoding or delivery. -/
theorem c6_witness :
    ((Request.mk Method.post (some "wrong") sampleBody).authorization ≠ some "pw")
  ∧ ((WebhookClient.handle "pw" true (Request.mk Method.post (some "wrong") sampleBody)).bodyDecoded = false
  ∧ (WebhookClient.handle "pw" true (Request.mk Method.post (some "wrong") sampleBody)).events = []
  ∧ (WebhookClient.handle "pw" true (Request.mk Method.post (some "wrong") sampleBody)).result = HandlerResult.rejected) :=
  ⟨by decide, c6_unauthorized_rejected "pw" true (Request.mk Method.post (some "wrong") sampleBody) (by decide)⟩

/-- C7: a POST whose `authorization` header equals the shared secret and
whose body decodes as a notification pushes exactly that one
notification onto the channel and replies with success; the decode maps
wire `bot` and `user` to unparsed strings, the wire type field to
`kind`, `isWeekend` to `is_weekend`, and carries the optional `query`
through (absent when the key is missing). -/
theorem c7_authorized_delivers :
    (∀ (auth : String) (req : Request) (w : Webhook),
        req.method = Method.post →
        req.authorization = some auth →
        Webhook.fromJson req.body = some w →
        WebhookClient.handle auth true req
          = { bodyDecoded := true, events := [w], result := HandlerResult.replied })
  ∧ (∀ (b u t : String) (wk : Bool) (q : String),
        Webhook.fromJson (Json.obj [("bot", Json.str b), ("user", Json.str u),
            ("type", Json.str t), ("isWeekend", Json.bool wk), ("query", Json.str q)])
          = some { bot := b, user := u, kind := t, is_weekend := wk, query := some q })
  ∧ (∀ (b u t : String) (wk : Bool),
        Webhook.fromJson (Json.obj [("bot", Json.str b), ("user", Json.str u),
            ("type", Json.str t), ("isWeekend", Json.bool wk)])
          = some { bot := b, user := u, kind := t, is_weekend := wk, query := none }) := by
  refine ⟨?_, ?_, ?_⟩
  · intro auth req w hm ha hb
    obtain ⟨m, a, body⟩ := req
    simp only at hm ha hb
    subst hm
    subst ha
    simp [WebhookClient.handle, hb]
  · intro b u t wk q
    simp [Webhook.fromJson, jlookup, Json.asStr, Json.asBool]
  · intro b u t wk
    simp [Webhook.fromJson, jlookup, Json.asStr, Json.asBool]

/-- C7 witness: the sample authorized request delivers exactly its
decoded notification. -/
theorem c7_witness :
    (sampleReq.method = Method.post)
  ∧ (sampleReq.authorization = some "pw")
  ∧ (Webhook.fromJson sampleReq.body = some sampleHook)
  ∧ WebhookClient.handle "pw" true sampleReq
      = { bodyDecoded := true, events := [sampleHook], result := HandlerResult.replied } :=
  ⟨rfl, rfl, by decide,
   c7_authorized_delivers.1 "pw" sampleReq sampleHook rfl rfl (by decide)⟩

/-- C8: in the bot-profile field mapping the donation-guild ID degrades
rather than fails — an unparseable wire string leaves the field absent
while the decode succeeds, and any parseable string (including "0")
leaves the field present with the parsed value. -/
theorem c8_donate_guild_degrades (j : Topgg.JsonBot) (i : Nat) (os gs : List Nat)
    (hid : parseU64 j.id = some i)
    (ho : j.owners.mapM parseU64 = some os)
    (hg : j.guilds.mapM parseU64 = some gs) :
    (parseU64 j.donatebotguildid = none →
      ∃ b, Topgg.bot (NetResult.ok j) = RustOutcome.ret (some b)
        ∧ b.donate_bot_guild_id = none)
  ∧ (∀ v, parseU64 j.donatebotguildid = some v →
      ∃ b, Topgg.bot (NetResult.ok j) = RustOutcome.ret (some b)
        ∧ b.donate_bot_guild_id = some v)
  ∧ (j.donatebotguildid = "0" →
      ∃ b, Topgg.bot (NetResult.ok j) = RustOutcome.ret (some b)
        ∧ b.donate_bot_guild_id = some 0) := by
  refine ⟨?_, ?_, ?_⟩
  · intro hd
    exact ⟨_, Topgg.bot_ok j i os gs hid ho hg, hd⟩
  · intro v hd
    exact ⟨_, Topgg.bot_ok j i os gs hid ho hg, hd⟩
  · intro hd
    have hd0 : parseU64 j.donatebotguildid = some 0 := by rw [hd]; decide
    exact ⟨_, Topgg.bot_ok j i os gs hid ho hg, hd0⟩

/-- C8 witness: the unparseable and the "0" donation-guild fixtures, fed
through the theorem. -/
theorem c8_witness :
    (parseU64 botJsonNoDonate.donatebotguildid = none)
  ∧ (∃ b, Topgg.bot (NetResult.ok botJsonNoDonate) = RustOutcome.ret (some b)
        ∧ b.donate_bot_guild_id = none)
  ∧ (botJsonZeroDonate.donatebotguildid = "0")
  ∧ (∃ b, Topgg.bot (NetResult.ok botJsonZeroDonate) = RustOutcome.ret (some b)
        ∧ b.donate_bot_guild_id = some 0) :=
  ⟨by decide,
   (c8_donate_guild_degrades botJsonNoDonate 668701133069352961
      [195512978634833920] [1, 2] (by decide) (by decide) (by decide)).1 (by decide),
   rfl,
   (c8_donate_guild_degrades botJsonZeroDonate 668701133069352961
      [195512978634833920] [1, 2] (by decide) (by decide) (by decide)).2.2 rfl⟩

/-- C9: when the wire owner and guild lists are decimal strings of
64-bit values, decoding yields the same values in the same order, and
re-encoding them decimally gives back exactly the wire lists. -/
theorem c9_id_lists_round_trip (j : Topgg.JsonBot) (i : Nat) (os gs : List Nat)
    (hid : parseU64 j.id = some i)
    (ho : j.owners = os.map decimalRepr) (hbo : ∀ x ∈ os, x < 2 ^ 64)
    (hg : j.guilds = gs.map decimalRepr) (hbg : ∀ x ∈ gs, x < 2 ^ 64) :
    ∃ b, Topgg.bot (NetResult.ok j) = RustOutcome.ret (some b)
      ∧ b.owners = os ∧ b.guilds = gs
      ∧ b.owners.map decimalRepr = j.owners
      ∧ b.guilds.map decimalRepr = j.guilds := by
  have ho2 : j.owners.mapM parseU64 = some os := by
    rw [ho]; exact mapM_parseU64_decimalRepr os hbo
  have hg2 : j.guilds.mapM parseU64 = some gs := by
    rw [hg]; exact mapM_parseU64_decimalRepr gs hbg
  exact ⟨_, Topgg.bot_ok j i os gs hid ho2 hg2, rfl, rfl,
    by rw [ho], by rw [hg]⟩

/-- C9 witness: a fixture whose owner list is ["3", "12"] and guild list
["0", "45"] decodes to [3, 12] and [0, 45] and re-encodes identically. -/
theorem c9_witness :
    (botJsonRound.owners = [3, 12].map decimalRepr)
  ∧ (botJsonRound.guilds = [0, 45].map decimalRepr)
  ∧ (∃ b, Topgg.bot (NetResult.ok botJsonRound) = RustOutcome.ret (some b)
      ∧ b.owners = [3, 12] ∧ b.guilds = [0, 45]
      ∧ b.owners.map decimalRepr = botJsonRound.owners
      ∧ b.guilds.map decimalRepr = botJsonRound.guilds) :=
  ⟨by decide, by decide,
   c9_id_lists_round_trip botJsonRound 668701133069352961 [3, 12] [0, 45]
     (by decide) (by decide) (by decide) (by decide) (by decide)⟩

/-- C10: once the receiving half of the channel is gone, the very next
authenticated, well-formed POST makes the handler's `unwrap` on the
failed `unbounded_send` panic, delivering nothing. -/
theorem c10_closed_receiver_panics (auth : String) (req : Request) (w : Webhook)
    (hm : req.method = Method.post) (ha : req.authorization = some auth)
    (hb : Webhook.fromJson req.body = some w) :
    (WebhookClient.handle auth false req).result = HandlerResult.panicked
  ∧ (WebhookClient.handle auth false req).events = [] := by
  obtain ⟨m, a, body⟩ := req
  simp only at hm ha hb
  subst hm
  subst ha
  simp [WebhookClient.handle, hb]

/-- C10 witness: the sample authorized request panics the handler when
the receiver has been dropped. -/
theorem c10_witness :
    (sampleReq.method = Method.post)
  ∧ (sampleReq.authorization = some "pw")
  ∧ (Webhook.fromJson sampleReq.body = some sampleHook)
  ∧ ((WebhookClient.handle "pw" false sampleReq).result = HandlerResult.panicked
  ∧ (WebhookClient.handle "pw" false sampleReq).events = []) :=
  ⟨rfl, rfl, by decide,
   c10_closed_receiver_panics "pw" sampleReq sampleHook rfl rfl (by decide)⟩
